import Mathlib

/-!
Verification of the skymap repository: a shallow embedding of
`python/lsst/skymap/dodecaSkyMap.py` (DodecaSkyMap and its helper
`_coordFromVec`) together with spec-modelled definitions for the parts of
the repository that only appear here through callers and tests
(detail.Dodecahedron, BaseSkyMap, TractInfo, RingsSkyMap.findAllTracts and
the SHA1-based SkyMap identity).

Machine doubles are embedded as exact rationals; the numpy constant
`numpy.finfo(float).tiny` is the smallest positive normal double, 2^-1022.
External afw library calls (coordinate trigonometry, WCS) are represented
either structurally (a Coord remembers which makeCoord overload produced
it) or as explicitly quantified conversion functions.
-/

namespace Skymap

/-- A 3-component cartesian vector (machine doubles embedded as exact
rationals). -/
structure Vec3 where
  x : ℚ
  y : ℚ
  z : ℚ
deriving DecidableEq, Repr

/-- Dot product of two vectors. -/
def dot3 (a b : Vec3) : ℚ := a.x * b.x + a.y * b.y + a.z * b.z

/-- The module constant `_TinyFloat = numpy.finfo(float).tiny`: the
smallest positive normal IEEE-754 double, 2^-1022. -/
def tinyFloat : ℚ := 1 / 2 ^ 1022

/-- The failure modes of the embedded code.
  * `poleAmbiguity` is the `RuntimeError("At pole and defRA==None")`
    raised by `_coordFromVec` (the PoleAmbiguity of the spec taxonomy).
  * `configurationError` is the fail-fast rejection of an invalid
    configuration by the base-class constructor (not under src/,
    modelled from the spec).
  * `undefinedNameError` is the exception produced by line 144 of
    dodecaSkyMap.py, `raise runtimeError(...)`: the lowercase name
    `runtimeError` is not defined anywhere, so evaluating it raises a
    NameError rather than the intended RuntimeError. -/
inductive PyError where
  | poleAmbiguity
  | configurationError
  | undefinedNameError
deriving DecidableEq, Repr

/-- An ICRS coordinate as built by `_coordFromVec`: the code calls one of
two `afwCoord.makeCoord` overloads, either from an explicit
(longitude, declination-in-degrees) pair or directly from a cartesian
vector, and we keep that structure (the afw conversion math is an external
collaborator). -/
inductive Coord where
  | icrsFromLonLat (ra : ℚ) (decDeg : ℚ)
  | icrsFromVec (v : Vec3)
deriving DecidableEq, Repr

/-- getLongitude of a Coord. For a coordinate built from an explicit
longitude it is that longitude; for one built from a vector the external
afw library computes it by spherical trigonometry, represented by the
explicit conversion function f. -/
def Coord.getLongitudeWith (f : Vec3 → ℚ) : Coord → ℚ
  | .icrsFromLonLat ra _ => ra
  | .icrsFromVec v => f v

/-- The near-pole test of `_coordFromVec`: both equatorial components
smaller than `_TinyFloat` in absolute value. -/
def nearPole (v : Vec3) : Prop := |v.x| < tinyFloat ∧ |v.y| < tinyFloat

instance (v : Vec3) : Decidable (nearPole v) := by
  unfold nearPole; infer_instance

/-- Embedding of `_coordFromVec(vec, defRA=None)` from dodecaSkyMap.py:
if both equatorial components are below `_TinyFloat`, raise when no
default RA is supplied, otherwise build the coordinate from the default
RA and a declination of plus or minus 90 degrees by the sign of `vec[2]`;
away from the pole build the coordinate from the vector, ignoring defRA. -/
def coordFromVec (vec : Vec3) (defRA : Option ℚ) : Except PyError Coord :=
  if nearPole vec then
    match defRA with
    | none => .error .poleAmbiguity
    | some ra => .ok (.icrsFromLonLat ra (if vec.z > 0 then 90 else -90))
  else
    .ok (.icrsFromVec vec)

/-- With a default RA supplied, `_coordFromVec` never fails. -/
theorem coordFromVec_some_ok (vec : Vec3) (ra : ℚ) :
    coordFromVec vec (some ra) =
      .ok (if nearPole vec then .icrsFromLonLat ra (if vec.z > 0 then 90 else -90)
           else .icrsFromVec vec) := by
  unfold coordFromVec
  by_cases h : nearPole vec <;> simp [h]

/-- C2: for every vector with both equatorial components below
`_TinyFloat` in absolute value, `_coordFromVec` fails with the pole
ambiguity error exactly when no default longitude is supplied; with a
default it returns that longitude and declination +90 degrees when the
polar component is positive, -90 degrees otherwise; for every other
vector it never fails and the result ignores the default. -/
theorem coordFromVec_pole_spec (vec : Vec3) :
    (nearPole vec → coordFromVec vec none = .error .poleAmbiguity) ∧
    (∀ ra : ℚ, nearPole vec →
      coordFromVec vec (some ra) =
        .ok (.icrsFromLonLat ra (if vec.z > 0 then 90 else -90))) ∧
    (¬ nearPole vec → ∀ defRA : Option ℚ,
      coordFromVec vec defRA = .ok (.icrsFromVec vec)) := by
  refine ⟨fun h => ?_, fun ra h => ?_, fun h defRA => ?_⟩
  · simp [coordFromVec, h]
  · simp [coordFromVec, h]
  · cases defRA <;> simp [coordFromVec, h]

/-- Witness for C2 at concrete inputs: the north-pole vector (0,0,1)
fails without a default and succeeds with default longitude 7; the
off-pole vector (1,0,0) succeeds and ignores the default. -/
theorem coordFromVec_pole_spec_witness :
    coordFromVec ⟨0, 0, 1⟩ none = .error .poleAmbiguity ∧
    coordFromVec ⟨0, 0, 1⟩ (some 7) = .ok (.icrsFromLonLat 7 90) ∧
    coordFromVec ⟨1, 0, 0⟩ (some 7) = .ok (.icrsFromVec ⟨1, 0, 0⟩) := by
  have hpole : nearPole ⟨0, 0, 1⟩ := by
    constructor <;> simp [tinyFloat]
  have hoff : ¬ nearPole ⟨1, 0, 0⟩ := by
    intro h
    have hx := h.1
    rw [show |(Vec3.mk 1 0 0).x| = 1 by norm_num] at hx
    have : tinyFloat < 1 := by
      unfold tinyFloat
      rw [div_lt_one (by positivity)]
      norm_num
    linarith
  refine ⟨(coordFromVec_pole_spec ⟨0, 0, 1⟩).1 hpole, ?_, ?_⟩
  · have := (coordFromVec_pole_spec ⟨0, 0, 1⟩).2.1 7 hpole
    simpa using this
  · exact (coordFromVec_pole_spec ⟨1, 0, 0⟩).2.2 hoff (some 7)

/-- Modelled from the spec: `detail.Dodecahedron` (not under src/; §4.2 of
the spec). It is built once from the `withFacesOnPoles` flag, carries
twelve deterministically numbered face centers and a vertex ring per face,
and never mutates. Concrete face geometry (golden-ratio vectors) is
irrational, so the model quantifies over it; the twelve-face count is part
of the structure. -/
structure Dodecahedron where
  withFacesOnPoles : Bool
  faceCenters : List Vec3
  faceVertices : ℕ → List Vec3
  faceCenters_length : faceCenters.length = 12

/-- getFaceCtr(id): the center vector of face id. -/
def Dodecahedron.getFaceCtr (d : Dodecahedron) (id : ℕ) : Vec3 :=
  d.faceCenters.getD id ⟨0, 0, 0⟩

/-- getVertices(id): the vertex vectors of face id. -/
def Dodecahedron.getVertices (d : Dodecahedron) (id : ℕ) : List Vec3 :=
  d.faceVertices id

/-- getWithFacesOnPoles(). -/
def Dodecahedron.getWithFacesOnPoles (d : Dodecahedron) : Bool :=
  d.withFacesOnPoles

/-- Modelled from the spec: the nearest-face-center classification of
`faceContaining` (§4.2), scanning the remaining centers while keeping the
index of the best (largest) dot product seen so far; a strict comparison
keeps the first maximum, so ties break to the lowest id as the spec
requires. `i` is the index of the next candidate, `besti` the current
best index and `bestd` its dot product. -/
def argmaxDotAux (v : Vec3) : List Vec3 → ℕ → ℕ → ℚ → ℕ
  | [], _, besti, _ => besti
  | c :: cs, i, besti, bestd =>
    if dot3 c v > bestd then argmaxDotAux v cs (i + 1) i (dot3 c v)
    else argmaxDotAux v cs (i + 1) besti bestd

/-- Modelled from the spec: `Dodecahedron.getFaceInd(vec)` — the id of the
face whose center is angularly closest to the query vector (largest dot
product), ties to the lowest id. -/
def Dodecahedron.getFaceInd (d : Dodecahedron) (v : Vec3) : ℕ :=
  match d.faceCenters with
  | [] => 0
  | c :: cs => argmaxDotAux v cs 1 0 (dot3 c v)

/-- Modelled from the spec: the TractInfo record (tractInfo.py is not
under src/). We keep the construction inputs that DodecaSkyMap.__init__
passes; the WCS built by the external projection factory is out of scope. -/
structure TractInfo where
  id : ℕ
  ctrCoord : Coord
  vertexCoordList : List Coord
  patchInnerDimensions : ℤ × ℤ
  patchBorder : ℤ
  tractOverlap : ℚ
deriving DecidableEq, Repr

/-- The constructor arguments of DodecaSkyMap (angles carried as exact
rationals in a linear angular unit, i.e. radians as persisted). -/
structure DodecaConfig where
  patchInnerDimensions : ℤ × ℤ
  patchBorder : ℤ
  tractOverlap : ℚ
  pixelScale : ℚ
  projection : String
  withTractsOnPoles : Bool
deriving DecidableEq, Repr

/-- Modelled from the spec: the fail-fast configuration validation of the
base-class constructor (baseSkyMap.py is not under src/): non-positive
patch inner dimensions or a negative patch border are rejected with a
ConfigurationError before any tract is built (§4.3 and §7 of the spec). -/
def checkBaseConfig (cfg : DodecaConfig) : Except PyError Unit :=
  if cfg.patchInnerDimensions.1 ≤ 0 ∨ cfg.patchInnerDimensions.2 ≤ 0 ∨
      cfg.patchBorder < 0 then
    .error .configurationError
  else
    .ok ()

/-- The vertex list comprehension of DodecaSkyMap.__init__ line 118:
convert every vertex vector with the tract RA as default longitude; the
first exception escapes the comprehension. -/
def convertVertexList (ra : ℚ) : List Vec3 → Except PyError (List Coord)
  | [] => .ok []
  | v :: vs =>
    match coordFromVec v (some ra) with
    | .error e => .error e
    | .ok c =>
      match convertVertexList ra vs with
      | .error e => .error e
      | .ok cs => .ok (c :: cs)

/-- One iteration of the tract-building loop of DodecaSkyMap.__init__
(lines 106-122): the face center is converted with default RA 0, the
tract RA is read back from that coordinate, and every vertex is converted
with the tract RA as default. `f` is the external afw longitude-of-vector
conversion. -/
def buildTract (f : Vec3 → ℚ) (cfg : DodecaConfig) (d : Dodecahedron)
    (id : ℕ) : Except PyError TractInfo :=
  match coordFromVec (d.getFaceCtr id) (some 0) with
  | .error e => .error e
  | .ok tractCoord =>
    let tractRA := tractCoord.getLongitudeWith f
    match convertVertexList tractRA (d.getVertices id) with
    | .error e => .error e
    | .ok vertexCoordList =>
      .ok {
        id := id
        ctrCoord := tractCoord
        vertexCoordList := vertexCoordList
        patchInnerDimensions := cfg.patchInnerDimensions
        patchBorder := cfg.patchBorder
        tractOverlap := cfg.tractOverlap
      }

/-- The loop `for id in range(12)`, unrolled as a recursion that builds
the tracts with ids i, i+1, ..., i+n-1 in order. -/
def buildTractsFrom (f : Vec3 → ℚ) (cfg : DodecaConfig) (d : Dodecahedron) :
    ℕ → ℕ → Except PyError (List TractInfo)
  | _, 0 => .ok []
  | i, n + 1 =>
    match buildTract f cfg d i with
    | .error e => .error e
    | .ok t =>
      match buildTractsFrom f cfg d (i + 1) n with
      | .error e => .error e
      | .ok rest => .ok (t :: rest)

/-- The DodecaSkyMap object: configuration, pickle version, the
dodecahedron and the ordered tract list. -/
structure DodecaSkyMap where
  config : DodecaConfig
  version : ℕ × ℕ
  dodecahedron : Dodecahedron
  tractInfoList : List TractInfo

/-- DodecaSkyMap.__init__ (lines 76-122): sets `_version = (1, 0)`,
builds the dodecahedron from the `withTractsOnPoles` flag (the concrete
geometry construction is external to src/, represented by `mkD`), runs
the base-class constructor (configuration validation) and then builds the
twelve tracts. -/
def buildDodecaSkyMap (mkD : Bool → Dodecahedron) (f : Vec3 → ℚ)
    (cfg : DodecaConfig) : Except PyError DodecaSkyMap :=
  let d := mkD cfg.withTractsOnPoles
  match checkBaseConfig cfg with
  | .error e => .error e
  | .ok _ =>
    match buildTractsFrom f cfg d 0 12 with
    | .error e => .error e
    | .ok tracts =>
      .ok { config := cfg, version := (1, 0), dodecahedron := d,
            tractInfoList := tracts }

/-- BaseSkyMap.__getitem__ : skymap[i] is the i-th tract of the ordered
list (modelled from the spec; out-of-range indexing is a Python
IndexError, hence Option). -/
def DodecaSkyMap.getItem (m : DodecaSkyMap) (i : ℕ) : Option TractInfo :=
  m.tractInfoList.get? i

/-- len(skymap): the tract count (BaseSkyMap.__len__, modelled from the
spec). -/
def DodecaSkyMap.skyMapLen (m : DodecaSkyMap) : ℕ :=
  m.tractInfoList.length

/-- DodecaSkyMap.getVersion (lines 159-164). -/
def DodecaSkyMap.getVersion (m : DodecaSkyMap) : ℕ × ℕ :=
  m.version

/-- DodecaSkyMap.getWithTractsOnPoles (lines 166-171): reads the flag
back from the dodecahedron. -/
def DodecaSkyMap.getWithTractsOnPoles (m : DodecaSkyMap) : Bool :=
  m.dodecahedron.getWithFacesOnPoles

/-- DodecaSkyMap.findTract (lines 149-157):
`self[self._dodecahedron.getFaceInd(coord.toIcrs().getVector())]`.
`g` is the external afw conversion of a coordinate to its ICRS unit
vector. -/
def DodecaSkyMap.findTract (g : Coord → Vec3) (m : DodecaSkyMap)
    (coord : Coord) : Option TractInfo :=
  m.getItem (m.dodecahedron.getFaceInd (g coord))

/-- The dictionary produced by DodecaSkyMap.__getstate__ (lines 124-137);
the two angle entries hold `.asRadians()` values. -/
structure SkyMapState where
  version : ℕ × ℕ
  patchInnerDimensions : ℤ × ℤ
  patchBorder : ℤ
  tractOverlap : ℚ
  pixelScale : ℚ
  projection : String
  withTractsOnPoles : Bool
deriving DecidableEq, Repr

/-- DodecaSkyMap.__getstate__ (lines 124-137). Angles are persisted in
radians, which is also their internal representation here, so
`.asRadians()` is the identity. -/
def DodecaSkyMap.getstate (m : DodecaSkyMap) : SkyMapState where
  version := m.version
  patchInnerDimensions := m.config.patchInnerDimensions
  patchBorder := m.config.patchBorder
  tractOverlap := m.config.tractOverlap
  pixelScale := m.config.pixelScale
  projection := m.config.projection
  withTractsOnPoles := m.getWithTractsOnPoles

/-- Python tuple comparison `version >= (2, 0)` for pairs of naturals
(lexicographic). -/
def tupleGe20 (v : ℕ × ℕ) : Bool :=
  v.1 > 2 || (v.1 == 2 && v.2 ≥ 0)

/-- DodecaSkyMap.__setstate__ (lines 139-147): pops the version, rejects
any version >= (2, 0) — where the source executes
`raise runtimeError(...)` with an undefined lowercase name, so the
exception actually raised is a NameError — converts the two angle
entries back, and rebuilds through __init__. -/
def setstate (mkD : Bool → Dodecahedron) (f : Vec3 → ℚ)
    (st : SkyMapState) : Except PyError DodecaSkyMap :=
  if tupleGe20 st.version then
    .error .undefinedNameError
  else
    buildDodecaSkyMap mkD f {
      patchInnerDimensions := st.patchInnerDimensions
      patchBorder := st.patchBorder
      tractOverlap := st.tractOverlap
      pixelScale := st.pixelScale
      projection := st.projection
      withTractsOnPoles := st.withTractsOnPoles
    }

/-- The value `_coordFromVec(vec, defRA=ra)` computes (it never fails when
a default RA is supplied): the pole branch or the vector branch. -/
def coordPure (vec : Vec3) (ra : ℚ) : Coord :=
  if nearPole vec then .icrsFromLonLat ra (if vec.z > 0 then 90 else -90)
  else .icrsFromVec vec

theorem coordFromVec_eq_coordPure (vec : Vec3) (ra : ℚ) :
    coordFromVec vec (some ra) = .ok (coordPure vec ra) := by
  rw [coordFromVec_some_ok, coordPure]

theorem convertVertexList_eq (ra : ℚ) (l : List Vec3) :
    convertVertexList ra l = .ok (l.map (fun v => coordPure v ra)) := by
  induction l with
  | nil => rfl
  | cons v vs ih =>
    have step : convertVertexList ra (v :: vs) =
        match coordFromVec v (some ra) with
        | .error e => .error e
        | .ok c =>
          match convertVertexList ra vs with
          | .error e => .error e
          | .ok cs => .ok (c :: cs) := rfl
    rw [step, coordFromVec_eq_coordPure, ih]
    rfl

/-- The tract that one iteration of the construction loop computes. -/
def buildTractPure (f : Vec3 → ℚ) (cfg : DodecaConfig) (d : Dodecahedron)
    (id : ℕ) : TractInfo :=
  let tractCoord := coordPure (d.getFaceCtr id) 0
  let tractRA := tractCoord.getLongitudeWith f
  { id := id
    ctrCoord := tractCoord
    vertexCoordList := (d.getVertices id).map (fun v => coordPure v tractRA)
    patchInnerDimensions := cfg.patchInnerDimensions
    patchBorder := cfg.patchBorder
    tractOverlap := cfg.tractOverlap }

theorem buildTract_eq (f : Vec3 → ℚ) (cfg : DodecaConfig) (d : Dodecahedron)
    (id : ℕ) : buildTract f cfg d id = .ok (buildTractPure f cfg d id) := by
  have step : buildTract f cfg d id =
      match coordFromVec (d.getFaceCtr id) (some 0) with
      | .error e => .error e
      | .ok tractCoord =>
        match convertVertexList (tractCoord.getLongitudeWith f) (d.getVertices id) with
        | .error e => .error e
        | .ok vertexCoordList =>
          .ok {
            id := id
            ctrCoord := tractCoord
            vertexCoordList := vertexCoordList
            patchInnerDimensions := cfg.patchInnerDimensions
            patchBorder := cfg.patchBorder
            tractOverlap := cfg.tractOverlap } := rfl
  simp only [step, coordFromVec_eq_coordPure, convertVertexList_eq]
  rfl

theorem buildTractsFrom_eq (f : Vec3 → ℚ) (cfg : DodecaConfig)
    (d : Dodecahedron) (n i : ℕ) :
    buildTractsFrom f cfg d i n =
      .ok ((List.range' i n).map (buildTractPure f cfg d)) := by
  induction n generalizing i with
  | zero => rfl
  | succ n ih =>
    have step : buildTractsFrom f cfg d i (n + 1) =
        match buildTract f cfg d i with
        | .error e => .error e
        | .ok t =>
          match buildTractsFrom f cfg d (i + 1) n with
          | .error e => .error e
          | .ok rest => .ok (t :: rest) := rfl
    rw [List.range'_succ]
    simp only [step, buildTract_eq, ih, List.map_cons]

/-- Master description of DodecaSkyMap construction: it fails (with a
ConfigurationError, from the spec-modelled base-class validation) exactly
on an invalid configuration, and otherwise produces version (1, 0), the
dodecahedron for the requested orientation, and the pure tract list for
ids 0..11. -/
theorem buildDodecaSkyMap_eq (mkD : Bool → Dodecahedron) (f : Vec3 → ℚ)
    (cfg : DodecaConfig) :
    buildDodecaSkyMap mkD f cfg =
      if cfg.patchInnerDimensions.1 ≤ 0 ∨ cfg.patchInnerDimensions.2 ≤ 0 ∨
          cfg.patchBorder < 0 then
        .error .configurationError
      else
        .ok { config := cfg, version := (1, 0),
              dodecahedron := mkD cfg.withTractsOnPoles,
              tractInfoList := (List.range' 0 12).map
                (buildTractPure f cfg (mkD cfg.withTractsOnPoles)) } := by
  have step : buildDodecaSkyMap mkD f cfg =
      match checkBaseConfig cfg with
      | .error e => .error e
      | .ok _ =>
        match buildTractsFrom f cfg (mkD cfg.withTractsOnPoles) 0 12 with
        | .error e => .error e
        | .ok tracts =>
          .ok { config := cfg, version := (1, 0),
                dodecahedron := mkD cfg.withTractsOnPoles,
                tractInfoList := tracts } := rfl
  by_cases h : cfg.patchInnerDimensions.1 ≤ 0 ∨ cfg.patchInnerDimensions.2 ≤ 0 ∨
      cfg.patchBorder < 0
  · simp only [step, checkBaseConfig, if_pos h]
  · simp only [step, checkBaseConfig, if_neg h, buildTractsFrom_eq]

/-- The scan of `argmaxDotAux` only ever returns the running best index or
the index of a later candidate, so the result stays below i + cs.length
whenever the running best already does. -/
theorem argmaxDotAux_lt (v : Vec3) (cs : List Vec3) :
    ∀ (i besti : ℕ) (bestd : ℚ), besti < i →
      argmaxDotAux v cs i besti bestd < i + cs.length := by
  induction cs with
  | nil =>
    intro i besti bestd h
    simpa [argmaxDotAux] using h.trans_le (Nat.le_refl i)
  | cons c cs ih =>
    intro i besti bestd h
    unfold argmaxDotAux
    split
    · have := ih (i + 1) i (dot3 c v) (Nat.lt_succ_self i)
      simpa [Nat.add_comm, Nat.add_left_comm, Nat.add_assoc] using this
    · have := ih (i + 1) besti bestd (h.trans (Nat.lt_succ_self i))
      simpa [Nat.add_comm, Nat.add_left_comm, Nat.add_assoc] using this

/-- The face index returned by the membership test is always one of the
twelve face ids. -/
theorem getFaceInd_lt_twelve (d : Dodecahedron) (v : Vec3) :
    d.getFaceInd v < 12 := by
  unfold Dodecahedron.getFaceInd
  have hlen := d.faceCenters_length
  cases h : d.faceCenters with
  | nil => rw [h] at hlen; simp at hlen
  | cons c cs =>
    rw [h] at hlen
    simp only [List.length_cons] at hlen
    have := argmaxDotAux_lt v cs 1 0 (dot3 c v) Nat.one_pos
    show argmaxDotAux v cs 1 0 (dot3 c v) < 12
    omega

/-- Inversion of a successful construction: the configuration was valid
and the sky map is exactly the master record. -/
theorem build_ok_inv (mkD : Bool → Dodecahedron) (f : Vec3 → ℚ)
    (cfg : DodecaConfig) (m : DodecaSkyMap)
    (h : buildDodecaSkyMap mkD f cfg = .ok m) :
    ¬ (cfg.patchInnerDimensions.1 ≤ 0 ∨ cfg.patchInnerDimensions.2 ≤ 0 ∨
        cfg.patchBorder < 0) ∧
    m = { config := cfg, version := (1, 0),
          dodecahedron := mkD cfg.withTractsOnPoles,
          tractInfoList := (List.range' 0 12).map
            (buildTractPure f cfg (mkD cfg.withTractsOnPoles)) } := by
  rw [buildDodecaSkyMap_eq] at h
  by_cases hv : cfg.patchInnerDimensions.1 ≤ 0 ∨ cfg.patchInnerDimensions.2 ≤ 0 ∨
      cfg.patchBorder < 0
  · rw [if_pos hv] at h
    exact absurd h (by simp)
  · rw [if_neg hv] at h
    simp only [Except.ok.injEq] at h
    exact ⟨hv, h.symm⟩

/-- The tract list of a constructed sky map, element by element. -/
theorem tractInfoList_get (mkD : Bool → Dodecahedron) (f : Vec3 → ℚ)
    (cfg : DodecaConfig) (m : DodecaSkyMap)
    (h : buildDodecaSkyMap mkD f cfg = .ok m) (i : ℕ) (hi : i < 12) :
    m.tractInfoList.get? i =
      some (buildTractPure f cfg (mkD cfg.withTractsOnPoles) i) := by
  obtain ⟨-, hm⟩ := build_ok_inv mkD f cfg m h
  subst hm
  rw [List.get?_map, List.get?_range' 0 1 hi]
  simp

/-- C3: every successfully constructed DodecaSkyMap has exactly 12 tracts,
len(skymap) is 12, skymap[i] is the i-th tract in construction order, and
the tract stored at index i carries id i. -/
theorem dodeca_twelve_tracts (mkD : Bool → Dodecahedron) (f : Vec3 → ℚ)
    (cfg : DodecaConfig) (m : DodecaSkyMap)
    (h : buildDodecaSkyMap mkD f cfg = .ok m) :
    m.skyMapLen = 12 ∧ m.tractInfoList.length = 12 ∧
    ∀ i : ℕ, i < 12 → ∃ t : TractInfo,
      m.getItem i = some t ∧ m.tractInfoList.get? i = some t ∧ t.id = i := by
  obtain ⟨-, hm⟩ := build_ok_inv mkD f cfg m h
  refine ⟨?_, ?_, ?_⟩
  · rw [hm]
    simp [DodecaSkyMap.skyMapLen]
  · rw [hm]
    simp
  · intro i hi
    refine ⟨buildTractPure f cfg (mkD cfg.withTractsOnPoles) i, ?_, ?_, rfl⟩
    · exact tractInfoList_get mkD f cfg m h i hi
    · exact tractInfoList_get mkD f cfg m h i hi

/-- C1: findTract on any constructed DodecaSkyMap and any coordinate
always succeeds and returns exactly the single tract stored at the index
produced by the nearest-face-center membership test applied to the
ICRS unit vector of the coordinate (conversion function g). -/
theorem findTract_total_unique (mkD : Bool → Dodecahedron) (f : Vec3 → ℚ)
    (g : Coord → Vec3) (cfg : DodecaConfig) (m : DodecaSkyMap)
    (coord : Coord) (h : buildDodecaSkyMap mkD f cfg = .ok m) :
    ∃ t : TractInfo,
      DodecaSkyMap.findTract g m coord = some t ∧
      m.getItem (m.dodecahedron.getFaceInd (g coord)) = some t ∧
      t.id = m.dodecahedron.getFaceInd (g coord) ∧
      ∀ t' : TractInfo, DodecaSkyMap.findTract g m coord = some t' → t' = t := by
  have hget := tractInfoList_get mkD f cfg m h
    (m.dodecahedron.getFaceInd (g coord)) (getFaceInd_lt_twelve _ _)
  have hfind : DodecaSkyMap.findTract g m coord =
      some (buildTractPure f cfg (mkD cfg.withTractsOnPoles)
        (m.dodecahedron.getFaceInd (g coord))) := hget
  refine ⟨buildTractPure f cfg (mkD cfg.withTractsOnPoles)
      (m.dodecahedron.getFaceInd (g coord)), hfind, hget, rfl, ?_⟩
  intro t' ht'
  rw [hfind] at ht'
  injection ht' with hh
  exact hh.symm

/-- C9: for any dodecahedron factory and any configuration (hence for
both values of the withTractsOnPoles flag), construction can only fail
with the configuration error, never with the pole-ambiguity error, since
every conversion receives a default longitude; and a tract whose face
center lies on a pole gets center coordinate longitude 0 (the default RA
0 of line 108). -/
theorem dodeca_construction_no_pole_error (mkD : Bool → Dodecahedron)
    (f : Vec3 → ℚ) (cfg : DodecaConfig) :
    (∀ e : PyError, buildDodecaSkyMap mkD f cfg = .error e →
      e = .configurationError) ∧
    (∀ (m : DodecaSkyMap) (id : ℕ), buildDodecaSkyMap mkD f cfg = .ok m →
      id < 12 → nearPole (m.dodecahedron.getFaceCtr id) →
      ∃ t : TractInfo, m.getItem id = some t ∧
        t.ctrCoord = .icrsFromLonLat 0
          (if (m.dodecahedron.getFaceCtr id).z > 0 then 90 else -90) ∧
        t.ctrCoord.getLongitudeWith f = 0) := by
  constructor
  · intro e he
    rw [buildDodecaSkyMap_eq] at he
    by_cases hv : cfg.patchInnerDimensions.1 ≤ 0 ∨
        cfg.patchInnerDimensions.2 ≤ 0 ∨ cfg.patchBorder < 0
    · rw [if_pos hv] at he
      simp only [Except.error.injEq] at he
      exact he.symm
    · rw [if_neg hv] at he
      exact absurd he (by simp)
  · intro m id hm hid hpole
    obtain ⟨-, hmeq⟩ := build_ok_inv mkD f cfg m hm
    have hd : m.dodecahedron = mkD cfg.withTractsOnPoles := by rw [hmeq]
    rw [hd] at hpole
    refine ⟨buildTractPure f cfg (mkD cfg.withTractsOnPoles) id, ?_, ?_, ?_⟩
    · exact tractInfoList_get mkD f cfg m hm id hid
    · show coordPure ((mkD cfg.withTractsOnPoles).getFaceCtr id) 0 = _
      rw [coordPure, if_pos hpole, hd]
    · show (coordPure ((mkD cfg.withTractsOnPoles).getFaceCtr id) 0).getLongitudeWith f = 0
      rw [coordPure, if_pos hpole]
      rfl

/-- C10: construction pins the version to (1, 0): getVersion and the
pickled state report (1, 0), and any successful unpickling yields an
object whose version is again (1, 0), whatever accepted version the
state carried. -/
theorem dodeca_version_one_zero (mkD : Bool → Dodecahedron) (f : Vec3 → ℚ) :
    (∀ (cfg : DodecaConfig) (m : DodecaSkyMap),
      buildDodecaSkyMap mkD f cfg = .ok m →
      m.getVersion = (1, 0) ∧ m.getstate.version = (1, 0)) ∧
    (∀ (st : SkyMapState) (m : DodecaSkyMap),
      setstate mkD f st = .ok m → m.getVersion = (1, 0)) := by
  have hbuild : ∀ (cfg : DodecaConfig) (m : DodecaSkyMap),
      buildDodecaSkyMap mkD f cfg = .ok m → m.version = (1, 0) := by
    intro cfg m h
    obtain ⟨-, hm⟩ := build_ok_inv mkD f cfg m h
    rw [hm]
  constructor
  · intro cfg m h
    exact ⟨hbuild cfg m h, hbuild cfg m h⟩
  · intro st m h
    rw [setstate] at h
    by_cases hge : tupleGe20 st.version
    · rw [if_pos hge] at h
      exact absurd h (by simp)
    · rw [if_neg hge] at h
      exact hbuild _ m h

/-- An accepted (below (2, 0)) version makes __setstate__ delegate to
__init__ on the state fields. -/
theorem setstate_not_ge (mkD : Bool → Dodecahedron) (f : Vec3 → ℚ)
    (st : SkyMapState) (hlt : tupleGe20 st.version = false) :
    setstate mkD f st = buildDodecaSkyMap mkD f {
      patchInnerDimensions := st.patchInnerDimensions
      patchBorder := st.patchBorder
      tractOverlap := st.tractOverlap
      pixelScale := st.pixelScale
      projection := st.projection
      withTractsOnPoles := st.withTractsOnPoles } := by
  rw [setstate, if_neg (by simp [hlt])]

/-- C5: pickling a constructed DodecaSkyMap with __getstate__ and
reconstructing with __setstate__ returns exactly the same sky map
(identical configuration and tract layout); hmk states that the external
dodecahedron factory records the requested orientation flag, as the real
detail.Dodecahedron does. -/
theorem dodeca_pickle_roundtrip (mkD : Bool → Dodecahedron) (f : Vec3 → ℚ)
    (cfg : DodecaConfig) (m : DodecaSkyMap)
    (hmk : ∀ b, (mkD b).withFacesOnPoles = b)
    (h : buildDodecaSkyMap mkD f cfg = .ok m) :
    setstate mkD f m.getstate = .ok m := by
  obtain ⟨hv, hm⟩ := build_ok_inv mkD f cfg m h
  have hstate : m.getstate = {
      version := (1, 0)
      patchInnerDimensions := cfg.patchInnerDimensions
      patchBorder := cfg.patchBorder
      tractOverlap := cfg.tractOverlap
      pixelScale := cfg.pixelScale
      projection := cfg.projection
      withTractsOnPoles := cfg.withTractsOnPoles } := by
    rw [hm]
    simp only [DodecaSkyMap.getstate, DodecaSkyMap.getWithTractsOnPoles,
      Dodecahedron.getWithFacesOnPoles, hmk]
  rw [setstate_not_ge mkD f m.getstate (by rw [hstate]; rfl)]
  rw [hstate]
  exact h

/-- C8: an invalid configuration (non-positive inner dimension or
negative border) makes construction fail fast with the configuration
error; no sky map (in particular no tract list) is ever produced. -/
theorem dodeca_config_fail_fast (mkD : Bool → Dodecahedron) (f : Vec3 → ℚ)
    (cfg : DodecaConfig)
    (h : cfg.patchInnerDimensions.1 ≤ 0 ∨ cfg.patchInnerDimensions.2 ≤ 0 ∨
      cfg.patchBorder < 0) :
    buildDodecaSkyMap mkD f cfg = .error .configurationError ∧
    ∀ m : DodecaSkyMap, buildDodecaSkyMap mkD f cfg ≠ .ok m := by
  rw [buildDodecaSkyMap_eq, if_pos h]
  exact ⟨rfl, by simp⟩

/-- Concrete evaluation data: a stand-in dodecahedron factory with twelve
rational face centers (face 0 exactly on the north pole, so the pole
branch of the conversion is exercised). -/
def wCenters : List Vec3 :=
  [⟨0, 0, 1⟩, ⟨0, 0, -1⟩, ⟨1, 0, 0⟩, ⟨-1, 0, 0⟩, ⟨0, 1, 0⟩, ⟨0, -1, 0⟩,
   ⟨3/5, 4/5, 0⟩, ⟨-3/5, 4/5, 0⟩, ⟨3/5, -4/5, 0⟩, ⟨-3/5, -4/5, 0⟩,
   ⟨4/5, 0, 3/5⟩, ⟨-4/5, 0, 3/5⟩]

/-- Concrete dodecahedron factory for evaluation. -/
def wMkD : Bool → Dodecahedron := fun b =>
  { withFacesOnPoles := b
    faceCenters := wCenters
    faceVertices := fun _ => [⟨1, 0, 0⟩, ⟨0, 1, 0⟩, ⟨0, 0, 1⟩]
    faceCenters_length := rfl }

/-- Stub external longitude-of-vector conversion for evaluation. -/
def wF : Vec3 → ℚ := fun _ => 0

/-- Stub external coordinate-to-ICRS-vector conversion for evaluation. -/
def wG : Coord → Vec3 := fun _ => ⟨1, 0, 0⟩

/-- A valid concrete configuration (the default patch dimensions and
border of the source module). -/
def wCfg : DodecaConfig :=
  { patchInnerDimensions := (4000, 4000), patchBorder := 250,
    tractOverlap := 1, pixelScale := 2, projection := "STG",
    withTractsOnPoles := true }

/-- The sky map built from the concrete data. -/
def wSkyMap : DodecaSkyMap :=
  { config := wCfg, version := (1, 0), dodecahedron := wMkD true,
    tractInfoList := (List.range' 0 12).map (buildTractPure wF wCfg (wMkD true)) }

theorem wSkyMap_build : buildDodecaSkyMap wMkD wF wCfg = .ok wSkyMap := by
  rw [buildDodecaSkyMap_eq, if_neg (by norm_num [wCfg])]
  rfl

/-- Witness for C3: the concrete sky map has 12 tracts and the tract at
index 5 carries id 5. -/
theorem dodeca_twelve_tracts_witness :
    wSkyMap.skyMapLen = 12 ∧
    ∃ t : TractInfo, wSkyMap.getItem 5 = some t ∧ t.id = 5 := by
  obtain ⟨h1, -, h3⟩ := dodeca_twelve_tracts wMkD wF wCfg wSkyMap wSkyMap_build
  obtain ⟨t, ht1, -, ht3⟩ := h3 5 (by norm_num)
  exact ⟨h1, t, ht1, ht3⟩

/-- Witness for C1: findTract succeeds on the concrete sky map. -/
theorem findTract_total_unique_witness :
    ∃ t : TractInfo,
      DodecaSkyMap.findTract wG wSkyMap (Coord.icrsFromLonLat 0 0) = some t := by
  obtain ⟨t, ht, -⟩ := findTract_total_unique wMkD wF wG wCfg wSkyMap
    (Coord.icrsFromLonLat 0 0) wSkyMap_build
  exact ⟨t, ht⟩

/-- Witness for C9: the concrete pole-centered face 0 yields a tract with
center longitude 0. -/
theorem dodeca_construction_no_pole_error_witness :
    ∃ t : TractInfo, wSkyMap.getItem 0 = some t ∧
      t.ctrCoord = .icrsFromLonLat 0
        (if (wSkyMap.dodecahedron.getFaceCtr 0).z > 0 then 90 else -90) ∧
      t.ctrCoord.getLongitudeWith wF = 0 := by
  refine (dodeca_construction_no_pole_error wMkD wF wCfg).2 wSkyMap 0
    wSkyMap_build (by norm_num) ?_
  show nearPole ⟨0, 0, 1⟩
  constructor <;> simp [tinyFloat]

/-- Witness for C10 at the concrete sky map. -/
theorem dodeca_version_one_zero_witness :
    wSkyMap.getVersion = (1, 0) ∧ wSkyMap.getstate.version = (1, 0) :=
  (dodeca_version_one_zero wMkD wF).1 wCfg wSkyMap wSkyMap_build

/-- Witness for C5: the concrete sky map pickle round-trips. -/
theorem dodeca_pickle_roundtrip_witness :
    setstate wMkD wF wSkyMap.getstate = .ok wSkyMap :=
  dodeca_pickle_roundtrip wMkD wF wCfg wSkyMap (fun _ => rfl) wSkyMap_build

/-- An invalid configuration: zero patch width. -/
def wBadCfg : DodecaConfig :=
  { patchInnerDimensions := (0, 4000), patchBorder := 250, tractOverlap := 1,
    pixelScale := 2, projection := "STG", withTractsOnPoles := false }

/-- Witness for C8: the invalid configuration is rejected. -/
theorem dodeca_config_fail_fast_witness :
    buildDodecaSkyMap wMkD wF wBadCfg = .error .configurationError :=
  (dodeca_config_fail_fast wMkD wF wBadCfg (Or.inl (by norm_num [wBadCfg]))).1

/-- C4 (observed code bug): __setstate__ on a persisted state with version
(2, 0) fails, but by evaluating the undefined lowercase name
`runtimeError` on line 144 of dodecaSkyMap.py — a Python NameError — not
by raising the intended RuntimeError (the VersionError of the spec
taxonomy); a state with version (1, 0) is accepted and rebuilt normally. -/
theorem dodeca_setstate_future_version_bug :
    setstate wMkD wF
      { version := (2, 0)
        patchInnerDimensions := (4000, 4000)
        patchBorder := 250
        tractOverlap := 1
        pixelScale := 2
        projection := "STG"
        withTractsOnPoles := true } = .error .undefinedNameError ∧
    setstate wMkD wF
      { version := (1, 0)
        patchInnerDimensions := (4000, 4000)
        patchBorder := 250
        tractOverlap := 1
        pixelScale := 2
        projection := "STG"
        withTractsOnPoles := true } = .ok wSkyMap := by
  constructor
  · rfl
  · exact wSkyMap_build

/-- Modelled from the spec: a sky coordinate given by the exact sines and
cosines of its longitude and latitude (a lossless angle representation,
§3). At exact latitude plus or minus 90 degrees the latitude cosine is 0
and the latitude sine is plus or minus 1, for every longitude. -/
structure CoordTrig where
  lonCos : ℚ
  lonSin : ℚ
  latCos : ℚ
  latSin : ℚ
deriving DecidableEq, Repr

/-- Modelled from the spec: the ICRS unit vector of a coordinate by
standard spherical trigonometry (§4.1):
(cos lat cos lon, cos lat sin lon, sin lat). -/
def coordTrigToVector (c : CoordTrig) : Vec3 :=
  ⟨c.latCos * c.lonCos, c.latCos * c.lonSin, c.latSin⟩

/-- Modelled from the spec: a rings-strategy tract as seen by the
outer-region containment test — its center unit vector and the cosine of
its outer (overlap-inclusive) angular radius. -/
structure RingsTract where
  center : Vec3
  cosOuterRadius : ℚ
deriving DecidableEq, Repr

/-- Modelled from the spec: the stable vector-based outer-region test
(§4.5, pole regression note) — the coordinate lies in the outer region
when its angle to the tract center is at most the outer radius, i.e. the
dot product is at least the radius cosine. -/
def RingsTract.containsOuter (t : RingsTract) (v : Vec3) : Bool :=
  decide (t.cosOuterRadius ≤ dot3 t.center v)

/-- Modelled from the spec: RingsSkyMap.findAllTracts (ringsSkyMap.py is
not under src/, only its test) — return every tract whose outer region
contains the coordinate, in tract order, using the vector-based test. -/
def ringsFindAllTracts (tracts : List RingsTract) (c : CoordTrig) :
    List RingsTract :=
  tracts.filter (fun t => t.containsOuter (coordTrigToVector c))

/-- C6: at exact latitude +90 degrees the query vector is (0, 0, 1)
whatever the longitude is, so findAllTracts returns the same single-tract
list — the last tract — for every longitude, given that the north pole
lies in the last tract's outer region only (as the rings layout places
its north polar cap last); symmetrically the south pole returns the first
tract for every longitude. The function is total, so no query raises. -/
theorem ringsFindAllTracts_poles (tracts : List RingsTract)
    (lonCos lonSin lonCos' lonSin' : ℚ) (hne : tracts ≠ [])
    (hN : ∀ t ∈ tracts.dropLast, t.containsOuter ⟨0, 0, 1⟩ = false)
    (hNlast : (tracts.getLast hne).containsOuter ⟨0, 0, 1⟩ = true)
    (hS : ∀ t ∈ tracts.tail, t.containsOuter ⟨0, 0, -1⟩ = false)
    (hShead : (tracts.head hne).containsOuter ⟨0, 0, -1⟩ = true) :
    ringsFindAllTracts tracts ⟨lonCos, lonSin, 0, 1⟩ = [tracts.getLast hne] ∧
    ringsFindAllTracts tracts ⟨lonCos', lonSin', 0, 1⟩ =
      ringsFindAllTracts tracts ⟨lonCos, lonSin, 0, 1⟩ ∧
    ringsFindAllTracts tracts ⟨lonCos, lonSin, 0, -1⟩ = [tracts.head hne] := by
  have hvecN : ∀ a b : ℚ, coordTrigToVector ⟨a, b, 0, 1⟩ = ⟨0, 0, 1⟩ := by
    intro a b
    simp [coordTrigToVector]
  have hvecS : ∀ a b : ℚ, coordTrigToVector ⟨a, b, 0, -1⟩ = ⟨0, 0, -1⟩ := by
    intro a b
    simp [coordTrigToVector]
  have hnorth : ∀ a b : ℚ,
      ringsFindAllTracts tracts ⟨a, b, 0, 1⟩ = [tracts.getLast hne] := by
    intro a b
    rw [ringsFindAllTracts]
    simp only [hvecN]
    conv_lhs => rw [← List.dropLast_append_getLast hne]
    rw [List.filter_append]
    rw [List.filter_eq_nil.mpr (by intro t ht; simp [hN t ht])]
    simp [List.filter, hNlast]
  refine ⟨hnorth lonCos lonSin, by rw [hnorth, hnorth], ?_⟩
  rw [ringsFindAllTracts]
  simp only [hvecS]
  conv_lhs => rw [← List.head_cons_tail tracts hne]
  rw [List.filter_cons]
  rw [if_pos (by simp [hShead])]
  rw [List.filter_eq_nil.mpr (by intro t ht; simp [hS t ht])]

/-- A concrete rings layout for evaluation: polar caps first and last,
two equatorial tracts between, all with outer radius cosine 9/10. -/
def wRingsTracts : List RingsTract :=
  [⟨⟨0, 0, -1⟩, 9/10⟩, ⟨⟨1, 0, 0⟩, 9/10⟩, ⟨⟨0, 1, 0⟩, 9/10⟩, ⟨⟨0, 0, 1⟩, 9/10⟩]

/-- Witness for C6: two different longitudes at each pole of the concrete
layout give the same single cap tract. -/
theorem ringsFindAllTracts_poles_witness :
    ringsFindAllTracts wRingsTracts ⟨3/5, 4/5, 0, 1⟩ = [⟨⟨0, 0, 1⟩, 9/10⟩] ∧
    ringsFindAllTracts wRingsTracts ⟨-1, 0, 0, 1⟩ = [⟨⟨0, 0, 1⟩, 9/10⟩] ∧
    ringsFindAllTracts wRingsTracts ⟨3/5, 4/5, 0, -1⟩ = [⟨⟨0, 0, -1⟩, 9/10⟩] := by
  have hne : wRingsTracts ≠ [] := by simp [wRingsTracts]
  have hN : ∀ t ∈ wRingsTracts.dropLast,
      t.containsOuter ⟨0, 0, 1⟩ = false := by
    intro t ht
    have hdl : wRingsTracts.dropLast =
        [⟨⟨0, 0, -1⟩, 9/10⟩, ⟨⟨1, 0, 0⟩, 9/10⟩, ⟨⟨0, 1, 0⟩, 9/10⟩] := rfl
    rw [hdl] at ht
    simp only [List.mem_cons, List.not_mem_nil, or_false] at ht
    rcases ht with rfl | rfl | rfl <;>
      norm_num [RingsTract.containsOuter, dot3]
  have hNlast : (wRingsTracts.getLast hne).containsOuter ⟨0, 0, 1⟩ = true := by
    have hl : wRingsTracts.getLast hne = ⟨⟨0, 0, 1⟩, 9/10⟩ := rfl
    rw [hl]
    norm_num [RingsTract.containsOuter, dot3]
  have hS : ∀ t ∈ wRingsTracts.tail,
      t.containsOuter ⟨0, 0, -1⟩ = false := by
    intro t ht
    have htl : wRingsTracts.tail =
        [⟨⟨1, 0, 0⟩, 9/10⟩, ⟨⟨0, 1, 0⟩, 9/10⟩, ⟨⟨0, 0, 1⟩, 9/10⟩] := rfl
    rw [htl] at ht
    simp only [List.mem_cons, List.not_mem_nil, or_false] at ht
    rcases ht with rfl | rfl | rfl <;>
      norm_num [RingsTract.containsOuter, dot3]
  have hShead : (wRingsTracts.head hne).containsOuter ⟨0, 0, -1⟩ = true := by
    have hh : wRingsTracts.head hne = ⟨⟨0, 0, -1⟩, 9/10⟩ := rfl
    rw [hh]
    norm_num [RingsTract.containsOuter, dot3]
  have h := ringsFindAllTracts_poles wRingsTracts (3/5) (4/5) (-1) 0
    hne hN hNlast hS hShead
  have hlast : wRingsTracts.getLast hne = ⟨⟨0, 0, 1⟩, 9/10⟩ := rfl
  have hhead : wRingsTracts.head hne = ⟨⟨0, 0, -1⟩, 9/10⟩ := rfl
  exact ⟨by rw [h.1, hlast], by rw [h.2.1, h.1, hlast], by rw [h.2.2, hhead]⟩

/-- The serialized value of one configuration field. -/
inductive FieldVal where
  | intVal (n : ℤ)
  | natVal (n : ℕ)
  | ratVal (q : ℚ)
  | strVal (s : String)
deriving DecidableEq, Repr

/-- Modelled from the spec and the rings test: the rings strategy
configuration — the base fields plus the subclass-specific numRings and
raStart. -/
structure RingsConfig where
  patchInnerDimensions : ℤ × ℤ
  patchBorder : ℤ
  tractOverlap : ℚ
  pixelScale : ℚ
  projection : String
  numRings : ℕ
  raStart : ℚ
deriving DecidableEq, Repr

/-- Modelled from the spec (§4.5 and the design notes): the deterministic
fingerprint — a stable serialization of every configuration field,
subclass-specific ones included, in a fixed order, fed to the content
digest; the digest is collision-free on these serializations, so it is
represented by the serialization itself. -/
def serializeRingsConfig (c : RingsConfig) : List FieldVal :=
  [.intVal c.patchInnerDimensions.1, .intVal c.patchInnerDimensions.2,
   .intVal c.patchBorder, .ratVal c.tractOverlap, .ratVal c.pixelScale,
   .strVal c.projection, .natVal c.numRings, .ratVal c.raStart]

/-- Modelled from the spec: SkyMap equality compares the configuration
fingerprints (BaseSkyMap __eq__ via the sha1 digest, not under src/). -/
def ringsSkyMapEq (a b : RingsConfig) : Bool :=
  decide (serializeRingsConfig a = serializeRingsConfig b)

/-- C7: two rings SkyMaps compare equal exactly when every configuration
field — the subclass-specific ring count and starting RA included — is
equal, and two configurations differing in any field have different
fingerprints (the serialization is injective). -/
theorem ringsSkyMapEq_iff_config_eq (a b : RingsConfig) :
    (ringsSkyMapEq a b = true ↔ a = b) ∧
    (serializeRingsConfig a = serializeRingsConfig b ↔ a = b) := by
  have hser : serializeRingsConfig a = serializeRingsConfig b ↔ a = b := by
    constructor
    · intro hs
      simp only [serializeRingsConfig, List.cons.injEq, and_true,
        FieldVal.intVal.injEq, FieldVal.ratVal.injEq, FieldVal.strVal.injEq,
        FieldVal.natVal.injEq] at hs
      obtain ⟨h1, h2, h3, h4, h5, h6, h7, h8⟩ := hs
      obtain ⟨⟨px, py⟩, pb, ov, ps, pr, nr, rs⟩ := a
      obtain ⟨⟨qx, qy⟩, qb, qov, qps, qpr, qnr, qrs⟩ := b
      simp_all
    · intro hs
      rw [hs]
  refine ⟨?_, hser⟩
  rw [ringsSkyMapEq]
  simp [hser]

end Skymap
